import Mathlib

/-!
Shallow embedding of the WABotII message-processing pipeline
(`src/wabotii/api/routes.py`, `services/video.py`, `services/database.py`),
with theorems checking the natural-language specification against it.

External effects (the WAHA messaging gateway, yt-dlp, Cloudinary, the
filesystem clock and SQLite) are modelled as explicit oracle/environment
records passed to the embedded functions; each handler returns the list of
outward-visible actions it performs, in order.
-/

/- ### Python string primitives

The handlers use Python `in`, `str.startswith`, `str.strip` and `str.lower`.
These are re-implemented over `String.data` so that they evaluate inside the
kernel; `Char.toLower` matches Python for the ASCII range that all the
patterns tested by the code lie in. -/

/-- Python `pat in s` substring test. -/
def pyIn (pat s : String) : Bool := decide (pat.data <:+: s.data)

/-- Python `s.startswith(p)`. -/
def pyStartsWith (s p : String) : Bool := decide (p.data <+: s.data)

/-- Python `s.strip()`: remove leading and trailing whitespace. -/
def pyStrip (s : String) : String :=
  ⟨((s.data.dropWhile Char.isWhitespace).reverse.dropWhile Char.isWhitespace).reverse⟩

/-- Python `s.lower()` (ASCII range). -/
def strToLower (s : String) : String := ⟨s.data.map Char.toLower⟩

/- ### JSON values

Webhook payloads are dynamic Python dicts; they are embedded as a JSON value
type, with the Python operations the dispatcher uses (`in`, `[]`, `.get`,
`.keys`, truthiness, iteration) modelled as partial functions whose `.error`
case is the exception the Python expression raises (`TypeError`,
`KeyError`, `AttributeError`, `IndexError`). -/

inductive Json where
  | null
  | jbool (b : Bool)
  | num (q : ℚ)
  | str (s : String)
  | arr (xs : List Json)
  | obj (kvs : List (String × Json))
  deriving Repr, Inhabited

mutual

def Json.beq : Json → Json → Bool
  | .null, .null => true
  | .jbool a, .jbool b => a == b
  | .num a, .num b => a == b
  | .str a, .str b => a == b
  | .arr xs, .arr ys => Json.beqList xs ys
  | .obj kvs, .obj lvs => Json.beqObj kvs lvs
  | _, _ => false

def Json.beqList : List Json → List Json → Bool
  | [], [] => true
  | x :: xs, y :: ys => Json.beq x y && Json.beqList xs ys
  | _, _ => false

def Json.beqObj : List (String × Json) → List (String × Json) → Bool
  | [], [] => true
  | (k, v) :: xs, (l, w) :: ys => k == l && Json.beq v w && Json.beqObj xs ys
  | _, _ => false

end

instance : BEq Json := ⟨Json.beq⟩

/-- Python truthiness of a JSON value (`if x:`). -/
def pyTruthy : Json → Bool
  | .null => false
  | .jbool b => b
  | .num q => !(q == 0)
  | .str s => !(s == "")
  | .arr xs => !xs.isEmpty
  | .obj kvs => !kvs.isEmpty

/-- First binding of a key in a JSON object association list. -/
def objFind (kvs : List (String × Json)) (key : String) : Option Json :=
  (kvs.find? (fun p => p.1 == key)).map Prod.snd

/-- Python `key in v` for a string key: dict key membership, list element
membership, substring test on strings; `TypeError` otherwise. -/
def pyContains (v : Json) (key : String) : Except String Bool :=
  match v with
  | .obj kvs => .ok (kvs.any (fun p => p.1 == key))
  | .arr xs => .ok (xs.any (fun x => match x with | .str s => s == key | _ => false))
  | .str s => .ok (pyIn key s)
  | _ => .error "TypeError: argument of type is not iterable"

/-- Python `v[key]` for a string key. -/
def pyIndexStr (v : Json) (key : String) : Except String Json :=
  match v with
  | .obj kvs =>
      match objFind kvs key with
      | some w => .ok w
      | none => .error "KeyError"
  | _ => .error "TypeError: indices must be integers"

/-- Python `v[0]`. -/
def pyIndexZero : Json → Except String Json
  | .arr [] => .error "IndexError: list index out of range"
  | .arr (x :: _) => .ok x
  | .str s =>
      match s.data with
      | [] => .error "IndexError: string index out of range"
      | c :: _ => .ok (.str ⟨[c]⟩)
  | .obj _ => .error "KeyError: 0"
  | _ => .error "TypeError: not subscriptable"

/-- Python `v.get(key)`: `AttributeError` unless `v` is a dict. -/
def pyGet (v : Json) (key : String) : Except String Json :=
  match v with
  | .obj kvs => .ok ((objFind kvs key).getD .null)
  | _ => .error "AttributeError: object has no attribute get"

/-- Python `v.get(key, dflt)`. -/
def pyGetD (v : Json) (key : String) (dflt : Json) : Except String Json :=
  match v with
  | .obj kvs => .ok ((objFind kvs key).getD dflt)
  | _ => .error "AttributeError: object has no attribute get"

/-- Python `list(v.keys())`. -/
def pyKeys : Json → Except String (List String)
  | .obj kvs => .ok (kvs.map Prod.fst)
  | _ => .error "AttributeError: object has no attribute keys"

/-- Whether the value can be used as a Python dict key. -/
def pyHashable : Json → Bool
  | .arr _ => false
  | .obj _ => false
  | _ => true

/-- Python `for x in v`: lists iterate elements, strings iterate characters,
dicts iterate keys; `TypeError` otherwise. -/
def toIterable : Json → Except String (List Json)
  | .arr xs => .ok xs
  | .str s => .ok (s.data.map (fun c => .str ⟨[c]⟩))
  | .obj kvs => .ok (kvs.map (fun p => .str p.1))
  | _ => .error "TypeError: object is not iterable"

/-- Python `v == "s"` for a string literal comparison. -/
def jEqStr (v : Json) (s : String) : Bool :=
  match v with
  | .str t => t == s
  | _ => false

/-- Python `str(x)` for an optional string (`None` prints as `"None"`),
as interpolated by f-strings in the handlers. -/
def pyStrOptStr : Option String → String
  | some s => s
  | none => "None"

/-- Python truthiness of an optional string (`None` and `""` are falsy). -/
def pyTruthyOptStr : Option String → Bool
  | some s => !(s == "")
  | none => false

/-- Python `o or dflt` for an optional string. -/
def pyOrStr (o : Option String) (dflt : String) : String :=
  match o with
  | some s => if s == "" then dflt else s
  | none => dflt

/-- Python `o or dflt` for an optional number. -/
def pyOrRat (o : Option ℚ) (dflt : ℚ) : ℚ :=
  match o with
  | some q => if q == 0 then dflt else q
  | none => dflt

/- ### Deduplication cache (routes.py lines 29-41, 437-449)

`message_cache : Dict[str, float]` maps a message id to the time it was last
processed.  The dispatcher writes arbitrary payload values into it, so the
key type is generic here (the dispatcher instantiates it with `Json`, the
specification-level `shouldProcess` with `String`). -/

def MESSAGE_CACHE_TTL : ℚ := 60

/-- Source `cleanup_message_cache`: drop entries older than the TTL. -/
def cleanup_message_cache {α : Type} (cache : List (α × ℚ)) (now : ℚ) : List (α × ℚ) :=
  cache.filter (fun p => decide (now - p.2 < MESSAGE_CACHE_TTL))

/-- Python `message_id in message_cache` / `message_cache[message_id]`. -/
def cacheLookup {α : Type} [BEq α] (cache : List (α × ℚ)) (m : α) : Option ℚ :=
  (cache.find? (fun p => p.1 == m)).map Prod.snd

/-- Python `message_cache[message_id] = now` (dict update). -/
def cacheInsert {α : Type} [BEq α] (cache : List (α × ℚ)) (m : α) (t : ℚ) : List (α × ℚ) :=
  if cache.any (fun p => p.1 == m) then
    cache.map (fun p => if p.1 == m then (m, t) else p)
  else cache ++ [(m, t)]

/-- The deduplication decision of `receive_webhook` (lines 438-449), as the
specification names it: skip if the id was processed less than TTL seconds
ago, otherwise record the current time (and sweep) and process. -/
def shouldProcess {α : Type} [BEq α] (cache : List (α × ℚ)) (m : α) (now : ℚ) :
    Bool × List (α × ℚ) :=
  match cacheLookup cache m with
  | some last =>
      if now - last < MESSAGE_CACHE_TTL then (false, cache)
      else (true, cleanup_message_cache (cacheInsert cache m now) now)
  | none => (true, cleanup_message_cache (cacheInsert cache m now) now)

/- ### URL classification (routes.py lines 62-101 and 182-220)

Both handlers inline the same classification of an inbound text: no "http"
substring gives the help reply, then a fixed allow-list of URL prefixes for
YouTube and Facebook (plus the Facebook share path pattern) is tested. -/

/-- The inline `is_valid` allow-list test of both handlers. -/
def is_valid_url (url : String) : Bool :=
  pyStartsWith url "https://www.youtube.com" ||
  pyStartsWith url "https://youtube.com" ||
  pyStartsWith url "https://youtu.be" ||
  pyStartsWith url "https://www.facebook.com" ||
  pyStartsWith url "https://facebook.com" ||
  pyStartsWith url "https://fb.watch" ||
  pyIn "facebook.com/share" url

inductive Classification where
  | Help
  | Unsupported
  | Valid (url : String)
  deriving Repr, DecidableEq

/-- The URL classifier of the handlers as one function: `Help` when the text
has no "http" substring (case-insensitive), otherwise `Valid` on the trimmed
text when the allow-list matches, else `Unsupported`. -/
def classify (text : String) : Classification :=
  if !(pyIn "http" (strToLower text)) then .Help
  else if is_valid_url (pyStrip text) then .Valid (pyStrip text)
  else .Unsupported

/- ### Media fetcher (services/video.py)

`download_video` wraps yt-dlp; the external world (share-link resolution,
extraction, the filesystem) is an oracle record.  `resolve_facebook_share`
and the yt-dlp extraction either raise (carrying a message string) or return
a value, exactly as in the source; both exception paths are mapped by
`download_video` to an error result. -/

structure ExtractInfo where
  /-- Result of `ydl.prepare_filename(info)`. -/
  downloadedPath : String
  /-- Value of `info.get("title", "video")` already resolved. -/
  title : String
  /-- Value of `info.get("duration")`. -/
  duration : Option Int
  deriving Repr

structure SyncDict where
  local_path : String
  file_size_mb : ℚ
  title : String
  duration : Option Int
  deriving Repr

structure FetchOracle where
  /-- Outcome of `resolve_facebook_share` (raises on checkpoint/challenge or
  on a request error; otherwise the resolved URL). -/
  resolveShare : Except String String
  /-- Outcome of `ydl.extract_info(url, download=True)`: raises, or returns
  `info` which Python may leave falsy (`none`). -/
  extract : Except String (Option ExtractInfo)
  /-- The timestamp embedded by `sanitize_filename`. -/
  sanitizeStamp : String
  /-- The timestamp of `_download_sync`. -/
  timestamp : String
  /-- Whether `os.rename(downloaded_path, new_path)` succeeds. -/
  renameOk : Bool
  /-- Whether the `shutil.copy2` + `os.remove` fallback succeeds. -/
  copyOk : Bool
  /-- Whether `os.path.exists(new_path)` holds after the move. -/
  finalExists : Bool
  /-- Bytes reported by `os.path.getsize(new_path)`. -/
  sizeBytes : ℕ
  deriving Repr

/-- Message `str(e)` of the `AttributeError` Python raises when `_download_sync`
returns `None` and `download_video` calls `result.get(...)` on it. -/
def noneTypeGetMsg : String :=
  "\u0027NoneType\u0027 object has no attribute \u0027get\u0027"

/-- ASCII approximation of the `\w` character class used by
`sanitize_filename`. -/
def isWordChar (c : Char) : Bool := c.isAlphanum || c == '_'

/-- Helper of `collapseSpaces`: the flag records whether the previous kept
character came from a whitespace run. -/
def collapseSpacesAux : Bool → List Char → List Char
  | _, [] => []
  | prevWs, c :: rest =>
      if c.isWhitespace then
        if prevWs then collapseSpacesAux true rest
        else ' ' :: collapseSpacesAux true rest
      else c :: collapseSpacesAux false rest

/-- Python `re.sub(r"\s+", " ", s)`: collapse each maximal whitespace run into one
space. -/
def collapseSpaces (l : List Char) : List Char := collapseSpacesAux false l

/-- Source `utils/helpers.py sanitize_filename`: strip non-word characters, collapse
whitespace, truncate to 50, append a timestamp, strip. -/
def sanitize_filename (filename : String) (nowStamp : String) : String :=
  let s1 := filename.data.filter (fun c => isWordChar c || c.isWhitespace || c == '-')
  let s2 := collapseSpaces s1
  let s3 := if s2.length > 50 then s2.take 47 ++ "...".data else s2
  pyStrip ⟨s3 ++ "_".data ++ nowStamp.data⟩

/-- Source `_download_sync` (video.py lines 99-150): run extraction, rename into the
canonical name (falling back to copy+delete, then to the original path),
validate non-emptiness.  Returns `none` where Python implicitly returns
`None` (falsy `info`, or final path missing). -/
def download_sync (o : FetchOracle) : Except String (Option SyncDict) :=
  match o.extract with
  | .error e => .error e
  | .ok none => .ok none
  | .ok (some info) =>
      let downloaded_path := info.downloadedPath
      let title := info.title
      let sanitized_title := sanitize_filename title o.sanitizeStamp
      let new_filename := "original_" ++ sanitized_title ++ "_" ++ o.timestamp ++ ".mp4"
      let new_path0 := "downloads/" ++ new_filename
      let new_path :=
        if downloaded_path == new_path0 then new_path0
        else if o.renameOk then new_path0
        else if o.copyOk then new_path0
        else downloaded_path
      if o.finalExists then
        let file_size_mb : ℚ := (o.sizeBytes : ℚ) / (1024 * 1024)
        if file_size_mb == 0 then .error "The downloaded file is empty"
        else .ok (some { local_path := new_path, file_size_mb := file_size_mb,
                         title := title, duration := info.duration })
      else .ok none

structure VideoDownloadResult where
  local_path : Option String
  file_size_mb : Option ℚ
  title : Option String := none
  duration : Option Int := none
  error : Option String := none
  deriving Repr

/-- The `except` clause of `download_video` (lines 211-226): map the raised
message onto a user-facing error string. -/
def mkErrorResult (e : String) : VideoDownloadResult :=
  let error_str := strToLower e
  let error_msg :=
    if pyIn "requested format not available" error_str then
      "Video format not available - might be private or deleted"
    else if pyIn "video is private" error_str then "Video is private"
    else if pyIn "sign in to view" error_str then "Video requires authentication"
    else e
  { local_path := none, file_size_mb := none, error := some error_msg }

/-- The body of `download_video` after share resolution: run
`_download_sync`; a `None` return makes `result.get(...)` raise an
`AttributeError` that the same `except` clause catches. -/
def download_video_rest (o : FetchOracle) : VideoDownloadResult :=
  match download_sync o with
  | .ok (some d) =>
      { local_path := some d.local_path, file_size_mb := some d.file_size_mb,
        title := some d.title, duration := d.duration }
  | .ok none => mkErrorResult noneTypeGetMsg
  | .error e => mkErrorResult e

/-- Source `download_video` (video.py lines 153-226).  Cookie-path selection only
chooses which cookie file is handed to the oracle calls and does not affect
the result shape, so it is not tracked. -/
def download_video (url : String) (o : FetchOracle) : VideoDownloadResult :=
  if pyIn "facebook.com/share" url then
    match o.resolveShare with
    | .error e => { local_path := none, file_size_mb := none, error := some e }
    | .ok _resolved => download_video_rest o
  else download_video_rest o

/- ### Outward-visible actions of the dispatcher and handlers -/

inductive Act where
  /-- Call `waha_service.send_text_message(chat, msg)`. -/
  | sendText (chat : Json) (msg : String)
  /-- Call `waha_service.send_video_message(chat, path)` (an inline-send attempt). -/
  | inlineSend (chat : Json) (path : String)
  /-- Call `cloud_service.async_upload_to_cloudinary(path)` (a cloud-upload attempt). -/
  | cloudUpload (path : String)
  /-- Call `db_service.get_or_create_user(chat)`. -/
  | ledgerGetUser (chat : Json)
  /-- Call `db_service.record_download(user, url, title, size, status)`. -/
  | ledgerRecord (url title : String) (sizeMb : ℚ) (status : String)
  /-- Call `db_service.update_download_url(chat, url, cloud_url)`. -/
  | updateDownloadUrl (chat : Json) (url cloudUrl : String)
  /-- Call `os.remove(path)`. -/
  | deleteFile (path : String)
  deriving Repr

def countInlineSend (tr : List Act) : ℕ :=
  tr.countP (fun a => match a with | .inlineSend _ _ => true | _ => false)

def countCloudUpload (tr : List Act) : ℕ :=
  tr.countP (fun a => match a with | .cloudUpload _ => true | _ => false)

/-- Number of Ledger writes (user upsert, download record, or url update). -/
def countLedgerWrites (tr : List Act) : ℕ :=
  tr.countP (fun a =>
    match a with
    | .ledgerGetUser _ => true
    | .ledgerRecord _ _ _ _ => true
    | .updateDownloadUrl _ _ _ => true
    | _ => false)

/-- Number of download records whose status differs from `"completed"`. -/
def countNonCompletedRecords (tr : List Act) : ℕ :=
  tr.countP (fun a =>
    match a with
    | .ledgerRecord _ _ _ st => !(st == "completed")
    | _ => false)

def containsDeleteFile (tr : List Act) (p : String) : Bool :=
  tr.any (fun a => match a with | .deleteFile q => q == p | _ => false)

/- ### Message strings of the handlers -/

def helpMessage : String :=
  "👋 Welcome to WABotII - WhatsApp Video Downloader!\n\nJust send me a YouTube or Facebook video URL, and I\u0027ll download it for you.\n\nSupported platforms:\n• 📺 YouTube\n• 📘 Facebook\n\nExamples:\n• https://www.youtube.com/watch?v=...\n• https://www.facebook.com/...\n• https://youtu.be/..."

def invalidUrlMessage : String := "❌ Please send a valid YouTube or Facebook video URL"

def downloadingMessage : String := "📥 Downloading video..."

/-- The multi-line checkpoint remediation message (routes.py lines 113, 234). -/
def checkpointMessage : String :=
  "❌ Facebook security checkpoint detected. This video requires authentication.\n\nPlease try:\n• Making sure the video is public\n• Using a direct video link\n• Checking if the video is still available"

/-- Leading part of the generic failure message, completed by the error text. -/
def genericDownloadMsgStart : String := "❌ Could not download video: "

/-- Lines 109-115 and 230-236 (identical in both handlers): map a failed
download onto the user-facing reply. -/
def errorReplyMessage (error : Option String) : String :=
  let error_msg := pyOrStr error "Unknown error"
  if pyIn "checkpoint" (strToLower error_msg) then checkpointMessage
  else genericDownloadMsgStart ++ error_msg

/-- Render a rational with two decimals, standing in for Python `f"{x:.2f}"`
(rounding half up rather than half to even; no theorem depends on the
digits). -/
def formatTwoDec (q : ℚ) : String :=
  let c : ℤ := ⌊q * 100 + 1 / 2⌋
  let sign := if c < 0 then "-" else ""
  let a := c.natAbs
  sign ++ toString (a / 100) ++ "." ++ (if a % 100 < 10 then "0" else "") ++ toString (a % 100)

def hereIsYourVideoMessage : String :=
  "🎥 Here\u0027s your video! Uploading to Cloudinary for a shareable link..."

def sentToChatMessage : String := "✅ Video sent successfully to chat!"

def tooLargeMessage (file_size : ℚ) : String :=
  "📤 Video is " ++ formatTwoDec file_size ++ " MB - uploading to Cloudinary for a shareable link..."

def cloudLinkMessage (file_size : ℚ) (url : String) (video_sent_to_chat : Bool) : String :=
  let base := "☁️ Cloudinary Link (" ++ formatTwoDec file_size ++ " MB):\n" ++ url
  if video_sent_to_chat then base
  else base ++ "\n\nNote: Video was too large to send directly in chat."

def sentNoCloudMessage : String := "✅ Video sent to chat! (Cloudinary upload failed)"

def noCloudErrorMessage : String := "❌ Error: Could not upload to Cloudinary."

def uploadingToCloudMessage : String := "📤 Uploading to cloud..."

def wahaSuccessMessage (title : Option String) : String :=
  "✅ " ++ pyStrOptStr title ++ "\n\nVideo sent successfully!"

def wahaLinkMessage (title : Option String) (url : String) (retention_hours : ℕ) : String :=
  "✅ " ++ pyStrOptStr title ++ "\n\n🎬 Watch here: " ++ url ++ "\n\nLink expires in " ++
    toString retention_hours ++ " hours."

def wahaUploadFailedMessage : String := "❌ Failed to upload video. Please try again."

def errorOccurredMsgStart : String := "❌ An error occurred: "

/- ### WAHA-format handler (routes.py `handle_waha_message`, lines 44-162)

The environment stubs the external collaborators.  `send_text_message` and
`send_video_message` catch every exception internally and return a boolean
(waha.py lines 78-148), and `async_upload_to_cloudinary` catches internally
and returns `(None, None)` (cloud.py lines 39-77), so only dict access,
string methods and `os.path.getsize` can raise inside the handler`s own
`try` block. -/

structure WahaAEnv where
  /-- Stub of `download_video` (keyed by URL). -/
  fetch : String → VideoDownloadResult
  /-- Stub of `os.path.getsize` / `os.path.exists`: `none` models a missing file
  (so `getsize` raises `OSError`). -/
  getSizeBytes : String → Option ℕ
  /-- Result of `send_video_message` (never raises). -/
  sendVideo : String → Bool
  /-- Result of `async_upload_to_cloudinary`: `(secure_url, public_id)`,
  `(none, none)` on failure (never raises). -/
  upload : String → Option String × Option String
  /-- Whether the SQLite calls inside `save_download` succeed (its own
  `except` swallows a failure). -/
  saveDownloadDbOk : Bool

/-- Python `os.path.basename`. -/
def basename (p : String) : String :=
  ⟨(p.data.reverse.takeWhile (fun c => !(c == '/'))).reverse⟩

/-- Source `database.py save_download` (lines 194-231): upsert the user and append a
download record with status `"completed"`, swallowing any database error. -/
def save_download_actions (from_number : Json) (url local_path : String) (env : WahaAEnv) :
    List Act :=
  let video_title := basename local_path
  let file_size_mb : ℚ :=
    match env.getSizeBytes local_path with
    | some b => (b : ℚ) / (1024 * 1024)
    | none => 0
  if env.saveDownloadDbOk then
    [Act.ledgerGetUser from_number,
     Act.ledgerRecord url video_title file_size_mb "completed"]
  else [Act.ledgerGetUser from_number]

/-- Body of the `try` block of `handle_waha_message`; `.error` carries the
actions performed before the exception together with its message. -/
def handle_waha_message_core (payload : Json) (env : WahaAEnv) (retention_hours : ℕ) :
    Except (List Act × String) (List Act) :=
  match pyGet payload "from" with
  | .error e => .error ([], e)
  | .ok from_number =>
    match pyGetD payload "body" (.str "") with
    | .error e => .error ([], e)
    | .ok message_textJ =>
      if !(pyTruthy message_textJ) || !(pyTruthy from_number) then .ok []
      else
        match message_textJ with
        | .str message_text =>
            if !(pyIn "http" (strToLower message_text)) then
              .ok [Act.sendText from_number helpMessage]
            else
              let url := pyStrip message_text
              if !(is_valid_url url) then
                .ok [Act.sendText from_number invalidUrlMessage]
              else
                let tr0 := [Act.sendText from_number downloadingMessage]
                let download_result := env.fetch url
                if !(pyTruthyOptStr download_result.local_path) ||
                    pyTruthyOptStr download_result.error then
                  .ok (tr0 ++ [Act.sendText from_number
                                (errorReplyMessage download_result.error)])
                else
                  let local_path := download_result.local_path.getD ""
                  match env.getSizeBytes local_path with
                  | none => .error (tr0, "FileNotFoundError: os.path.getsize")
                  | some _bytes =>
                    let tr1 := tr0 ++ save_download_actions from_number url local_path env
                    let tr2 := tr1 ++ [Act.inlineSend from_number local_path]
                    if env.sendVideo local_path then
                      .ok (tr2 ++ [Act.sendText from_number
                                    (wahaSuccessMessage download_result.title)])
                    else
                      let tr3 := tr2 ++ [Act.sendText from_number uploadingToCloudMessage,
                                          Act.cloudUpload local_path]
                      let (upload_url, _public_id) := env.upload local_path
                      if pyTruthyOptStr upload_url then
                        .ok (tr3 ++ [Act.sendText from_number
                                      (wahaLinkMessage download_result.title
                                        (upload_url.getD "") retention_hours),
                                     Act.updateDownloadUrl from_number url
                                        (upload_url.getD "")])
                      else
                        .ok (tr3 ++ [Act.sendText from_number wahaUploadFailedMessage])
        | _ => .error ([], "AttributeError: object has no attribute lower")

/-- Source `handle_waha_message` with its boundary `except`: on an exception, a
best-effort error text is sent to `payload.get("from", "")` (itself guarded
by an inner `except: pass`). -/
def handle_waha_message (payload : Json) (env : WahaAEnv) (retention_hours : ℕ) : List Act :=
  match handle_waha_message_core payload env retention_hours with
  | .ok tr => tr
  | .error (tr, e) =>
      match pyGetD payload "from" (.str "") with
      | .ok f => tr ++ [Act.sendText f (errorOccurredMsgStart ++ e)]
      | .error _ => tr

/- ### Legacy-format handler (routes.py `handle_message_update`, lines 165-334) -/

structure MsgBEnv where
  /-- Stub of `download_video` (keyed by URL). -/
  fetch : String → VideoDownloadResult
  /-- Result of `send_video_message` (never raises, waha.py 104-148). -/
  sendVideo : String → Bool
  /-- Result of `async_upload_to_cloudinary` (never raises, cloud.py 39-77). -/
  upload : String → Option String × Option String
  /-- Stub of `os.path.exists(path)` before the handler itself removes the file. -/
  fileExists : String → Bool
  /-- Whether `get_or_create_user` succeeds inside the recording `try` block
  (a raise there is caught and logged, and skips `record_download`). -/
  getUserOk : Bool

structure DeliveryOutcome where
  inlineSent : Bool
  cloudUrl : Option String
  trace : List Act
  deriving Repr

/-- Lines 309-331: the four (inline x cloud) outcome messages and the final
local-file cleanup (`removed` records whether the large-file branch already
deleted the file). -/
def deliverTail (from_number : Json) (local_path : String) (file_size : ℚ)
    (video_sent_to_chat : Bool) (cloudinary_url : Option String) (removed : Bool)
    (env : MsgBEnv) (tr : List Act) : DeliveryOutcome :=
  let tr2 := tr ++
    (if pyTruthyOptStr cloudinary_url then
      [Act.sendText from_number
        (cloudLinkMessage file_size (cloudinary_url.getD "") video_sent_to_chat)]
     else if video_sent_to_chat then [Act.sendText from_number sentNoCloudMessage]
     else [Act.sendText from_number noCloudErrorMessage])
  let tr3 := tr2 ++
    (if !video_sent_to_chat && (env.fileExists local_path && !removed) then
      [Act.deleteFile local_path]
     else [])
  { inlineSent := video_sent_to_chat, cloudUrl := cloudinary_url, trace := tr3 }

/-- The delivery decision of `handle_message_update` (lines 252-331), the
specification`s Delivery Strategist: below the threshold attempt inline send
then cloud upload; at or above it upload to cloud only and delete the local
file right after the upload (`os.remove` raising there is caught and resets
the url to `None`).  The `except` branch around `send_video_message` is dead
code because that call catches internally. -/
def deliver (from_number : Json) (local_path : String) (file_size : ℚ)
    (max_file_size_mb : ℚ) (env : MsgBEnv) : DeliveryOutcome :=
  if decide (file_size < max_file_size_mb) then
    let tr1 := [Act.sendText from_number hereIsYourVideoMessage,
                Act.inlineSend from_number local_path]
    let video_sent_to_chat := env.sendVideo local_path
    let tr2 := if video_sent_to_chat then
                 tr1 ++ [Act.sendText from_number sentToChatMessage]
               else tr1
    let (cloudinary_url, _public_id) := env.upload local_path
    let tr3 := tr2 ++ [Act.cloudUpload local_path]
    deliverTail from_number local_path file_size video_sent_to_chat cloudinary_url false env tr3
  else
    let tr1 := [Act.sendText from_number (tooLargeMessage file_size),
                Act.cloudUpload local_path]
    let (uploaded_url, _public_id) := env.upload local_path
    if env.fileExists local_path then
      deliverTail from_number local_path file_size false uploaded_url true env
        (tr1 ++ [Act.deleteFile local_path])
    else
      deliverTail from_number local_path file_size false none false env tr1

/-- Lines 183-331 for one well-typed text body. -/
def processText (from_number : Json) (message_text : String) (env : MsgBEnv)
    (max_file_size_mb : ℚ) : List Act × Bool :=
  if !(pyIn "http" (strToLower message_text)) then
    ([Act.sendText from_number helpMessage], true)
  else
    let url := pyStrip message_text
    if !(is_valid_url url) then ([Act.sendText from_number invalidUrlMessage], true)
    else
      let tr0 := [Act.sendText from_number downloadingMessage]
      let download_result := env.fetch url
      if !(pyTruthyOptStr download_result.local_path) ||
          pyTruthyOptStr download_result.error then
        (tr0 ++ [Act.sendText from_number (errorReplyMessage download_result.error)], true)
      else
        let file_size := pyOrRat download_result.file_size_mb 0
        let trL :=
          if env.getUserOk then
            [Act.ledgerGetUser from_number,
             Act.ledgerRecord url (pyOrStr download_result.title "Unknown")
               file_size "completed"]
          else [Act.ledgerGetUser from_number]
        let local_path := download_result.local_path.getD ""
        let outcome := deliver from_number local_path file_size max_file_size_mb env
        (tr0 ++ trL ++ outcome.trace, false)

/-- One loop iteration of `handle_message_update` (lines 175-331).  The
boolean of `processText` distinguishes an early `return` from falling
through to the next message. -/
inductive IterResult where
  | ret (tr : List Act)
  | cont (tr : List Act)
  | err (tr : List Act) (e : String)
  deriving Repr

def process_message (message : Json) (env : MsgBEnv) (max_file_size_mb : ℚ) : IterResult :=
  match pyGet message "type" with
  | .error e => .err [] e
  | .ok ty =>
    if !(jEqStr ty "text") then .cont []
    else
      match pyIndexStr message "from" with
      | .error e => .err [] e
      | .ok from_number =>
        match pyIndexStr message "text" with
        | .error e => .err [] e
        | .ok textObj =>
          match pyIndexStr textObj "body" with
          | .error e => .err [] e
          | .ok bodyJ =>
            match bodyJ with
            | .str message_text =>
                match processText from_number message_text env max_file_size_mb with
                | (tr, true) => .ret tr
                | (tr, false) => .cont tr
            | _ => .err [] "AttributeError: object has no attribute lower"

def processMessages (msgs : List Json) (env : MsgBEnv) (max_file_size_mb : ℚ) :
    Except (List Act × String) (List Act) :=
  match msgs with
  | [] => .ok []
  | m :: rest =>
    match process_message m env max_file_size_mb with
    | .ret tr => .ok tr
    | .err tr e => .error (tr, e)
    | .cont tr =>
      match processMessages rest env max_file_size_mb with
      | .ok tr2 => .ok (tr ++ tr2)
      | .error (tr2, e) => .error (tr ++ tr2, e)

/-- Source `handle_message_update`: iterate `value.get("messages", [])`; any raise
is caught at the function boundary and only logged. -/
def handle_message_update (value : Json) (env : MsgBEnv) (max_file_size_mb : ℚ) :
    List Act :=
  match pyGetD value "messages" (.arr []) with
  | .error _ => []
  | .ok msgsJ =>
    match toIterable msgsJ with
    | .error _ => []
    | .ok msgs =>
      match processMessages msgs env max_file_size_mb with
      | .ok tr => tr
      | .error (tr, _) => tr

/- ### Webhook dispatcher (routes.py `receive_webhook`, lines 407-501)

The endpoint returns a `WebhookResponse` whose `status` field is `"ok"` on
every non-raising path and `"error"` when the handler body raises (the
boundary `except` at lines 499-501).  The two handler coroutines catch their
own exceptions, so after one of them is invoked the remaining body cannot
raise; every `"error"` exit therefore happens before any action and before
any cache write. -/

/-- Source `receive_webhook` on an already-parsed body (a failed JSON parse leaves
`body = None`, i.e. `Json.null`).  Result: response status, actions
performed, and the message cache after the call. -/
def receive_webhook (cache : List (Json × ℚ)) (now : ℚ) (envA : WahaAEnv) (envB : MsgBEnv)
    (retention_hours : ℕ) (max_file_size_mb : ℚ) (body : Json) :
    String × List Act × List (Json × ℚ) :=
  -- guard: `"event" in body and body["event"] == "message" and "payload" in body`
  match pyContains body "event" with
  | .error _ => ("error", [], cache)
  | .ok hasEvent =>
    let condA : Except String Bool :=
      if hasEvent then
        match pyIndexStr body "event" with
        | .error e => .error e
        | .ok ev => if jEqStr ev "message" then pyContains body "payload" else .ok false
      else .ok false
    match condA with
    | .error _ => ("error", [], cache)
    | .ok true =>
      match pyIndexStr body "payload" with
      | .error _ => ("error", [], cache)
      | .ok payload =>
        match pyGet payload "id" with
        | .error _ => ("error", [], cache)
        | .ok message_id =>
          if pyTruthy message_id then
            if pyHashable message_id then
              match cacheLookup cache message_id with
              | some last_processed =>
                  if decide (now - last_processed < MESSAGE_CACHE_TTL) then ("ok", [], cache)
                  else
                    ("ok", handle_waha_message payload envA retention_hours,
                     cleanup_message_cache (cacheInsert cache message_id now) now)
              | none =>
                  ("ok", handle_waha_message payload envA retention_hours,
                   cleanup_message_cache (cacheInsert cache message_id now) now)
            else ("error", [], cache)
          else
            ("ok", handle_waha_message payload envA retention_hours, cache)
    | .ok false =>
      -- `elif "data" in body`
      match pyContains body "data" with
      | .error _ => ("error", [], cache)
      | .ok hasData =>
        if hasData then
          match pyIndexStr body "data" with
          | .error _ => ("error", [], cache)
          | .ok value =>
            match pyContains value "messages" with
            | .error _ => ("error", [], cache)
            | .ok hasMsgs =>
              if hasMsgs then
                -- `message = value.get("messages", [ {} ])[0]`
                match pyGetD value "messages" (.arr [.obj []]) with
                | .error _ => ("error", [], cache)
                | .ok msgsJ =>
                  match pyIndexZero msgsJ with
                  | .error _ => ("error", [], cache)
                  | .ok message =>
                    match pyGet message "id" with
                    | .error _ => ("error", [], cache)
                    | .ok message_id =>
                      if pyTruthy message_id then
                        if pyHashable message_id then
                          match cacheLookup cache message_id with
                          | some last_processed =>
                              if decide (now - last_processed < MESSAGE_CACHE_TTL) then
                                ("ok", [], cache)
                              else
                                ("ok", handle_message_update value envB max_file_size_mb,
                                 cleanup_message_cache (cacheInsert cache message_id now) now)
                          | none =>
                              ("ok", handle_message_update value envB max_file_size_mb,
                               cleanup_message_cache (cacheInsert cache message_id now) now)
                        else ("error", [], cache)
                      else
                        ("ok", handle_message_update value envB max_file_size_mb, cache)
              else
                -- `elif "statuses" in value` (log only)
                match pyContains value "statuses" with
                | .error _ => ("error", [], cache)
                | .ok _ => ("ok", [], cache)
        else
          -- else branch: `logger.warning(..., keys=list(body.keys()))`
          match pyKeys body with
          | .error _ => ("error", [], cache)
          | .ok _ => ("ok", [], cache)

/- ### Usage ledger (services/database.py)

The users table (`id INTEGER PRIMARY KEY AUTOINCREMENT`,
`phone_number TEXT UNIQUE`) is modelled as a row list plus the autoincrement
counter. -/

structure DbState where
  /-- Rows `(id, phone_number)` of the users table, in insertion order. -/
  users : List (ℕ × String)
  /-- Next AUTOINCREMENT id. -/
  nextId : ℕ
  deriving Repr

/-- Source `get_or_create_user` (database.py lines 89-116): `SELECT id FROM users
WHERE phone_number = ?`, insert a fresh row when absent. -/
def get_or_create_user (db : DbState) (phone_number : String) : ℕ × DbState :=
  match db.users.find? (fun u => u.2 == phone_number) with
  | some u => (u.1, db)
  | none =>
      (db.nextId,
       { users := db.users ++ [(db.nextId, phone_number)], nextId := db.nextId + 1 })

/-- Rows holding a given phone number. -/
def userRowCount (db : DbState) (phone_number : String) : ℕ :=
  db.users.countP (fun u => u.2 == phone_number)

/- ### Shape predicates and concrete witness data -/

/-- Trace of one loop iteration, whichever way it ended. -/
def iterTrace : IterResult → List Act
  | .ret tr => tr
  | .cont tr => tr
  | .err tr _ => tr

/-- Trace of a possibly-raising handler body, whichever way it ended. -/
def resTrace : Except (List Act × String) (List Act) → List Act
  | .ok tr => tr
  | .error (tr, _) => tr

/-- Shape A of the specification: `{event:"message", payload:{...}}`
(used to state the webhook-shape claims). -/
def matchesShapeA : Json → Bool
  | .obj kvs =>
      (match objFind kvs "event" with
       | some (.str s) => s == "message"
       | _ => false) && (objFind kvs "payload").isSome
  | _ => false

/-- Shape B of the specification: `{data:{messages:[...]}}`. -/
def matchesShapeB : Json → Bool
  | .obj kvs =>
      match objFind kvs "data" with
      | some (.obj dkvs) =>
          (match objFind dkvs "messages" with
           | some (.arr _) => true
           | _ => false)
      | _ => false
  | _ => false

/-- Fetcher stub: a successful 20 MB download (20 * 1024 * 1024 bytes). -/
def fetch20mb : String → VideoDownloadResult := fun _ =>
  { local_path := some "x.mp4", file_size_mb := some 20,
    title := some "A Video", duration := some 10 }

/-- Fetcher stub: a checkpoint failure. -/
def fetchCheckpoint : String → VideoDownloadResult := fun _ =>
  { local_path := none, file_size_mb := none,
    error := some "Facebook security checkpoint detected: https://www.facebook.com/checkpoint" }

def envA0 : WahaAEnv :=
  { fetch := fetch20mb
    getSizeBytes := fun _ => some 20971520
    sendVideo := fun _ => true
    upload := fun _ => (some "https://cdn.example/v.mp4", some "pid")
    saveDownloadDbOk := true }

def envB0 : MsgBEnv :=
  { fetch := fetch20mb
    sendVideo := fun _ => true
    upload := fun _ => (some "https://cdn.example/v.mp4", some "pid")
    fileExists := fun _ => true
    getUserOk := true }

def envBCp : MsgBEnv :=
  { fetch := fetchCheckpoint
    sendVideo := fun _ => false
    upload := fun _ => (none, none)
    fileExists := fun _ => false
    getUserOk := true }

/-- A shape-A webhook body carrying a valid media URL (the spec scenario of
claim C1). -/
def bodyA20 : Json :=
  .obj [("event", .str "message"),
        ("payload", .obj [("id", .str "m1"),
                          ("from", .str "123"),
                          ("body", .str "https://www.youtube.com/watch?v=abc")])]

/-- A well-shaped legacy-format text message carrying a valid media URL. -/
def legacyMessage0 : Json :=
  .obj [("type", .str "text"),
        ("from", .str "123"),
        ("text", .obj [("body", .str "https://youtu.be/abc")])]

/-- Fetcher oracle for the bot-challenge raise of `resolve_facebook_share`
(video.py line 91): the response body carries a robot/bot/security-check
marker, so resolution raises with a message that does not contain the word
"checkpoint". -/
def challengeOracle : FetchOracle :=
  { resolveShare := .error "Facebook security challenge detected"
    extract := .ok none
    sanitizeStamp := ""
    timestamp := ""
    renameOk := true
    copyOk := true
    finalExists := false
    sizeBytes := 0 }

/-- Legacy-path environment whose fetch stub is the embedded `download_video`
itself running against `challengeOracle`. -/
def envBChal : MsgBEnv :=
  { fetch := fun u => download_video u challengeOracle
    sendVideo := fun _ => false
    upload := fun _ => (none, none)
    fileExists := fun _ => false
    getUserOk := true }

/-- A well-shaped legacy-format text message carrying a Facebook share URL. -/
def legacyShareMessage : Json :=
  .obj [("type", .str "text"),
        ("from", .str "123"),
        ("text", .obj [("body", .str "https://www.facebook.com/share/v/abc")])]

/- ### Helper lemmas -/

theorem countNonCompletedRecords_append (a b : List Act) :
    countNonCompletedRecords (a ++ b) =
      countNonCompletedRecords a + countNonCompletedRecords b := by
  unfold countNonCompletedRecords
  exact List.countP_append _ a b

theorem countInlineSend_append (a b : List Act) :
    countInlineSend (a ++ b) = countInlineSend a + countInlineSend b := by
  unfold countInlineSend
  exact List.countP_append _ a b

theorem countCloudUpload_append (a b : List Act) :
    countCloudUpload (a ++ b) = countCloudUpload a + countCloudUpload b := by
  unfold countCloudUpload
  exact List.countP_append _ a b

theorem countLedgerWrites_append (a b : List Act) :
    countLedgerWrites (a ++ b) = countLedgerWrites a + countLedgerWrites b := by
  unfold countLedgerWrites
  exact List.countP_append _ a b

/-- Python `key in dict` membership agrees with a successful key lookup. -/
theorem any_key_eq_objFind_isSome (kvs : List (String × Json)) (k : String) :
    kvs.any (fun p => p.1 == k) = (objFind kvs k).isSome := by
  unfold objFind
  induction kvs with
  | nil => simp
  | cons a rest ih =>
      cases h : (a.1 == k) with
      | true =>
          rw [List.any_cons, h, List.find?_cons_of_pos (p := fun q : String × Json => q.1 == k) _ h]
          simp
      | false =>
          rw [List.any_cons, h, List.find?_cons_of_neg (p := fun q : String × Json => q.1 == k) _ (by simp [h])]
          simpa using ih

/- ### C5: the Fetcher returns exactly one of a local path or an error -/

theorem download_video_rest_exactly_one (o : FetchOracle) :
    (download_video_rest o).local_path.isSome = !(download_video_rest o).error.isSome := by
  unfold download_video_rest mkErrorResult
  cases h : download_sync o with
  | error e => simp
  | ok v =>
      cases v with
      | none => simp
      | some d => simp

/-- C5: for every URL and every behaviour of the external downloader, the
`VideoDownloadResult` returned by `download_video` has exactly one of
`local_path` present or `error` present — never both, never neither. -/
theorem download_video_exactly_one_of_path_or_error (url : String) (o : FetchOracle) :
    (download_video url o).local_path.isSome = !(download_video url o).error.isSome := by
  unfold download_video
  by_cases hshare : pyIn "facebook.com/share" url = true
  · rw [if_pos hshare]
    cases hr : o.resolveShare with
    | error e => simp
    | ok resolved => exact download_video_rest_exactly_one o
  · rw [if_neg hshare]
    exact download_video_rest_exactly_one o

/- ### C9: the user upsert is idempotent -/

/-- C9: `get_or_create_user` is idempotent: a second call with the same
external identifier returns the same id and leaves the table unchanged, and
the table never ends up with more than one row for the identifier. -/
theorem get_or_create_user_idempotent (db : DbState) (phone : String) :
    (get_or_create_user (get_or_create_user db phone).2 phone).1
        = (get_or_create_user db phone).1 ∧
    (get_or_create_user (get_or_create_user db phone).2 phone).2
        = (get_or_create_user db phone).2 ∧
    userRowCount (get_or_create_user db phone).2 phone = max 1 (userRowCount db phone) := by
  cases h : db.users.find? (fun u => u.2 == phone) with
  | some u =>
      have h1 : get_or_create_user db phone = (u.1, db) := by
        unfold get_or_create_user
        rw [h]
      have hmem := List.mem_of_find?_eq_some h
      have hpred := List.find?_some h
      have hpos : 0 < db.users.countP (fun v => v.2 == phone) :=
        List.countP_pos_iff.mpr ⟨u, hmem, hpred⟩
      rw [h1]
      refine ⟨?_, ?_, ?_⟩
      · rw [h1]
      · rw [h1]
      · unfold userRowCount
        exact (Nat.max_eq_right hpos).symm
  | none =>
      have hz : db.users.countP (fun v => v.2 == phone) = 0 :=
        List.countP_eq_zero.mpr (List.find?_eq_none.mp h)
      have h1 : get_or_create_user db phone =
          (db.nextId, ⟨db.users ++ [(db.nextId, phone)], db.nextId + 1⟩) := by
        unfold get_or_create_user
        rw [h]
      have hfind2 : (db.users ++ [(db.nextId, phone)]).find? (fun u => u.2 == phone)
          = some (db.nextId, phone) := by
        rw [List.find?_append, h]
        simp
      have h2 : get_or_create_user ⟨db.users ++ [(db.nextId, phone)], db.nextId + 1⟩ phone =
          (db.nextId, ⟨db.users ++ [(db.nextId, phone)], db.nextId + 1⟩) := by
        unfold get_or_create_user
        rw [show (DbState.mk (db.users ++ [(db.nextId, phone)]) (db.nextId + 1)).users
              = db.users ++ [(db.nextId, phone)] from rfl, hfind2]
      rw [h1]
      refine ⟨?_, ?_, ?_⟩
      · rw [h2]
      · rw [h2]
      · unfold userRowCount
        rw [show (DbState.mk (db.users ++ [(db.nextId, phone)]) (db.nextId + 1)).users
              = db.users ++ [(db.nextId, phone)] from rfl]
        rw [List.countP_append, hz]
        simp

/- ### C2: the classifier is total and Valid only on the allow-list -/

/-- C2: `classify` maps every input string to exactly one of Help,
Unsupported or Valid, and every Valid output satisfies one of the six fixed
URL prefixes or the Facebook share path pattern. -/
theorem classify_total_and_valid_from_allow_list (s : String) :
    (classify s = .Help ∨ classify s = .Unsupported ∨ classify s = .Valid (pyStrip s)) ∧
    (∀ u, classify s = .Valid u →
      pyStartsWith u "https://www.youtube.com" = true ∨
      pyStartsWith u "https://youtube.com" = true ∨
      pyStartsWith u "https://youtu.be" = true ∨
      pyStartsWith u "https://www.facebook.com" = true ∨
      pyStartsWith u "https://facebook.com" = true ∨
      pyStartsWith u "https://fb.watch" = true ∨
      pyIn "facebook.com/share" u = true) := by
  constructor
  · unfold classify
    split
    · exact Or.inl rfl
    · split
      · exact Or.inr (Or.inr rfl)
      · exact Or.inr (Or.inl rfl)
  · intro u hu
    unfold classify at hu
    split at hu
    · exact absurd hu (by simp)
    · split at hu
      case isTrue hv =>
        injection hu with h
        subst h
        simp only [is_valid_url, Bool.or_eq_true] at hv
        tauto
      case isFalse hv => exact absurd hu (by simp)

/- ### C7: the size threshold is an inclusive boundary for skipping inline -/

theorem deliverTail_inlineSent (f : Json) (p : String) (fs : ℚ) (sent : Bool)
    (cu : Option String) (rm : Bool) (env : MsgBEnv) (tr : List Act) :
    (deliverTail f p fs sent cu rm env tr).inlineSent = sent := rfl

theorem deliverTail_countInline (f : Json) (p : String) (fs : ℚ) (sent : Bool)
    (cu : Option String) (rm : Bool) (env : MsgBEnv) (tr : List Act) :
    countInlineSend (deliverTail f p fs sent cu rm env tr).trace = countInlineSend tr := by
  unfold deliverTail
  rw [countInlineSend_append, countInlineSend_append]
  have hz1 : countInlineSend
      (if pyTruthyOptStr cu then
        [Act.sendText f (cloudLinkMessage fs (cu.getD "") sent)]
       else if sent then [Act.sendText f sentNoCloudMessage]
       else [Act.sendText f noCloudErrorMessage]) = 0 := by
    split
    · rfl
    · split <;> rfl
  have hz2 : countInlineSend
      (if !sent && (env.fileExists p && !rm) then [Act.deleteFile p] else []) = 0 := by
    split <;> rfl
  rw [hz1, hz2]
  omega

/-- C7: `deliver` called with the file size exactly equal to the threshold
takes the too-large branch: no inline-send attempt is made and the outcome
reports `inlineSent = false`. -/
theorem deliver_at_threshold_skips_inline (from_number : Json) (local_path : String)
    (th : ℚ) (env : MsgBEnv) :
    (deliver from_number local_path th th env).inlineSent = false ∧
    countInlineSend (deliver from_number local_path th th env).trace = 0 := by
  unfold deliver
  have hlt : decide (th < th) = false := by simp
  rw [hlt]
  simp only [Bool.false_eq_true, if_false]
  split
  · refine ⟨deliverTail_inlineSent _ _ _ _ _ _ _ _, ?_⟩
    rw [deliverTail_countInline]
    rfl
  · refine ⟨deliverTail_inlineSent _ _ _ _ _ _ _ _, ?_⟩
    rw [deliverTail_countInline]
    rfl

/- ### C3: checkpoint failures get the distinct remediation message -/

/-- The remediation message is not the generic failure message, whatever the
echoed error text is. -/
theorem checkpointMessage_not_generic (s : String) :
    checkpointMessage ≠ genericDownloadMsgStart ++ s := by
  intro h
  have hd : checkpointMessage.data = genericDownloadMsgStart.data ++ s.data := by
    rw [h, String.data_append]
  have hpre : genericDownloadMsgStart.data <+: checkpointMessage.data := ⟨s.data, hd.symm⟩
  have ht : pyStartsWith checkpointMessage genericDownloadMsgStart = true := by
    simpa [pyStartsWith] using hpre
  have hf : pyStartsWith checkpointMessage genericDownloadMsgStart = false := by decide
  rw [hf] at ht
  exact Bool.false_ne_true ht

/-- Python `e or d` keeps a non-empty string. -/
theorem pyOrStr_some_ne (e d : String) (hne : e ≠ "") : pyOrStr (some e) d = e := by
  simp [pyOrStr, hne]

/-- Reduce one loop iteration on a well-shaped text message to `processText`. -/
theorem process_message_text_shape
    (message from_number textObj : Json) (env : MsgBEnv) (th : ℚ) (body : String)
    (hty : pyGet message "type" = .ok (.str "text"))
    (hfrom : pyIndexStr message "from" = .ok from_number)
    (htext : pyIndexStr message "text" = .ok textObj)
    (hbody : pyIndexStr textObj "body" = .ok (.str body)) :
    process_message message env th =
      (match processText from_number body env th with
       | (tr, true) => .ret tr
       | (tr, false) => .cont tr) := by
  unfold process_message
  rw [hty]
  dsimp only
  rw [hfrom]
  dsimp only
  rw [htext]
  dsimp only
  rw [hbody]
  simp [jEqStr]

/-- A failed fetch on the legacy path: the handler replies with the mapped
error message and returns, performing no other action. -/
theorem processText_fetch_failure
    (from_number : Json) (env : MsgBEnv) (th : ℚ) (body e : String)
    (hhttp : pyIn "http" (strToLower body) = true)
    (hvalid : is_valid_url (pyStrip body) = true)
    (herr : (env.fetch (pyStrip body)).error = some e)
    (hne : e ≠ "") :
    processText from_number body env th =
      ([Act.sendText from_number downloadingMessage,
        Act.sendText from_number (errorReplyMessage (some e))], true) := by
  unfold processText
  rw [hhttp]
  have htr : pyTruthyOptStr (env.fetch (pyStrip body)).error = true := by
    rw [herr]
    simp [pyTruthyOptStr, hne]
  simp [hvalid, htr, herr]
  intro h2
  simp [pyTruthyOptStr, hne]

/-- C3 (amended): whenever the Fetcher reports an error whose message
contains "checkpoint" (case-insensitively) — the final-URL checkpoint
detection of `resolve_facebook_share` — the handler sends the dedicated
remediation message, which differs from every generic could-not-download
message, and performs no Ledger write.  The Fetcher has a second
Checkpoint-kind raise, the bot-challenge check whose message lacks the word
"checkpoint"; for it the handler sends the generic message (see the
counterexample theorem below the witnesses). -/
theorem checkpoint_error_distinct_message_no_ledger
    (message from_number textObj : Json) (env : MsgBEnv) (th : ℚ) (body e : String)
    (hty : pyGet message "type" = .ok (.str "text"))
    (hfrom : pyIndexStr message "from" = .ok from_number)
    (htext : pyIndexStr message "text" = .ok textObj)
    (hbody : pyIndexStr textObj "body" = .ok (.str body))
    (hhttp : pyIn "http" (strToLower body) = true)
    (hvalid : is_valid_url (pyStrip body) = true)
    (herr : (env.fetch (pyStrip body)).error = some e)
    (hcp : pyIn "checkpoint" (strToLower e) = true) :
    process_message message env th =
      .ret [Act.sendText from_number downloadingMessage,
            Act.sendText from_number checkpointMessage] ∧
    countLedgerWrites [Act.sendText from_number downloadingMessage,
            Act.sendText from_number checkpointMessage] = 0 ∧
    (∀ s, checkpointMessage ≠ genericDownloadMsgStart ++ s) := by
  have hne : e ≠ "" := by
    intro hz
    subst hz
    exact absurd hcp (by decide)
  have hmsg : errorReplyMessage (some e) = checkpointMessage := by
    unfold errorReplyMessage
    rw [pyOrStr_some_ne e "Unknown error" hne, if_pos hcp]
  refine ⟨?_, rfl, checkpointMessage_not_generic⟩
  rw [process_message_text_shape message from_number textObj env th body hty hfrom htext hbody]
  rw [processText_fetch_failure from_number env th body e hhttp hvalid herr hne, hmsg]

/- ### C1: large files on the legacy path go to the cloud only -/

theorem containsDeleteFile_append (a b : List Act) (p : String) :
    containsDeleteFile (a ++ b) p = (containsDeleteFile a p || containsDeleteFile b p) := by
  unfold containsDeleteFile
  exact List.any_append

/-- A successful fetch on the legacy path: downloading notice, ledger
attempt, then delivery. -/
theorem processText_fetch_success
    (from_number : Json) (env : MsgBEnv) (th : ℚ) (body p : String)
    (hhttp : pyIn "http" (strToLower body) = true)
    (hvalid : is_valid_url (pyStrip body) = true)
    (hlp : (env.fetch (pyStrip body)).local_path = some p)
    (hp : p ≠ "")
    (herr : (env.fetch (pyStrip body)).error = none) :
    processText from_number body env th =
      ([Act.sendText from_number downloadingMessage] ++
       (if env.getUserOk then
          [Act.ledgerGetUser from_number,
           Act.ledgerRecord (pyStrip body)
             (pyOrStr (env.fetch (pyStrip body)).title "Unknown")
             (pyOrRat (env.fetch (pyStrip body)).file_size_mb 0) "completed"]
        else [Act.ledgerGetUser from_number]) ++
       (deliver from_number p (pyOrRat (env.fetch (pyStrip body)).file_size_mb 0) th env).trace,
       false) := by
  unfold processText
  rw [hhttp]
  have h1 : pyTruthyOptStr (env.fetch (pyStrip body)).local_path = true := by
    rw [hlp]
    simp [pyTruthyOptStr, hp]
  have h2 : pyTruthyOptStr (env.fetch (pyStrip body)).error = false := by
    rw [herr]
    rfl
  simp [hvalid, h1, h2, hlp]
  simp [pyTruthyOptStr, hp]

/-- At or above the threshold with a successful upload, `deliver` makes one
cloud-upload attempt, no inline-send attempt, and deletes the local file. -/
theorem deliver_large_cloud_only
    (f : Json) (p : String) (fs th : ℚ) (env : MsgBEnv) (u : String)
    (hsize : th ≤ fs)
    (hup : (env.upload p).1 = some u) (hu : u ≠ "")
    (hex : env.fileExists p = true) :
    countCloudUpload (deliver f p fs th env).trace = 1 ∧
    countInlineSend (deliver f p fs th env).trace = 0 ∧
    containsDeleteFile (deliver f p fs th env).trace p = true := by
  have hlt : decide (fs < th) = false := by simp [not_lt.mpr hsize]
  unfold deliver
  rw [hlt, if_neg Bool.false_ne_true]
  cases hupe : env.upload p with
  | mk u1 u2 =>
    rw [hupe] at hup
    dsimp only at hup
    subst hup
    dsimp only
    rw [if_pos hex]
    unfold deliverTail
    have htu : pyTruthyOptStr (some u) = true := by simp [pyTruthyOptStr, hu]
    rw [if_pos htu]
    simp only [Bool.not_true, Bool.and_false]
    rw [if_neg Bool.false_ne_true]
    refine ⟨rfl, rfl, ?_⟩
    simp [containsDeleteFile]

/-- C1 (amended): for a legacy shape-B text message whose body is a valid
media URL, when the fetched size is at or above the threshold and the cloud
upload succeeds, the handler makes exactly one cloud-upload attempt, zero
inline-send attempts, and deletes the local file after the upload. -/
theorem shapeB_large_file_cloud_only
    (message from_number textObj : Json) (env : MsgBEnv) (th : ℚ) (body p u : String)
    (hty : pyGet message "type" = .ok (.str "text"))
    (hfrom : pyIndexStr message "from" = .ok from_number)
    (htext : pyIndexStr message "text" = .ok textObj)
    (hbody : pyIndexStr textObj "body" = .ok (.str body))
    (hhttp : pyIn "http" (strToLower body) = true)
    (hvalid : is_valid_url (pyStrip body) = true)
    (hlp : (env.fetch (pyStrip body)).local_path = some p)
    (hp : p ≠ "")
    (herr : (env.fetch (pyStrip body)).error = none)
    (hsize : th ≤ pyOrRat (env.fetch (pyStrip body)).file_size_mb 0)
    (hup : (env.upload p).1 = some u) (hu : u ≠ "")
    (hex : env.fileExists p = true) :
    ∃ tr, process_message message env th = .cont tr ∧
      countCloudUpload tr = 1 ∧ countInlineSend tr = 0 ∧
      containsDeleteFile tr p = true := by
  rw [process_message_text_shape message from_number textObj env th body hty hfrom htext hbody]
  rw [processText_fetch_success from_number env th body p hhttp hvalid hlp hp herr]
  obtain ⟨hc, hi, hd⟩ := deliver_large_cloud_only from_number p
    (pyOrRat (env.fetch (pyStrip body)).file_size_mb 0) th env u hsize hup hu hex
  refine ⟨_, rfl, ?_, ?_, ?_⟩
  · rw [countCloudUpload_append, countCloudUpload_append, hc]
    split <;> rfl
  · rw [countInlineSend_append, countInlineSend_append, hi]
    split <;> rfl
  · rw [containsDeleteFile_append, containsDeleteFile_append, hd]
    simp

/- ### C6: the core only ever writes status "completed" records -/

theorem cncr_deliverTail (f : Json) (p : String) (fs : ℚ) (sent : Bool)
    (cu : Option String) (rm : Bool) (env : MsgBEnv) (tr : List Act) :
    countNonCompletedRecords (deliverTail f p fs sent cu rm env tr).trace =
      countNonCompletedRecords tr := by
  unfold deliverTail
  rw [countNonCompletedRecords_append, countNonCompletedRecords_append]
  have hz1 : countNonCompletedRecords
      (if pyTruthyOptStr cu then
        [Act.sendText f (cloudLinkMessage fs (cu.getD "") sent)]
       else if sent then [Act.sendText f sentNoCloudMessage]
       else [Act.sendText f noCloudErrorMessage]) = 0 := by
    split
    · rfl
    · split <;> rfl
  have hz2 : countNonCompletedRecords
      (if !sent && (env.fileExists p && !rm) then [Act.deleteFile p] else []) = 0 := by
    split <;> rfl
  rw [hz1, hz2]
  omega

theorem cncr_deliver (f : Json) (p : String) (fs th : ℚ) (env : MsgBEnv) :
    countNonCompletedRecords (deliver f p fs th env).trace = 0 := by
  unfold deliver
  split
  · rw [cncr_deliverTail, countNonCompletedRecords_append]
    split <;> rfl
  · split
    split
    · rw [cncr_deliverTail, countNonCompletedRecords_append]
      rfl
    · rw [cncr_deliverTail]
      rfl

theorem cncr_processText (f : Json) (body : String) (env : MsgBEnv) (th : ℚ) :
    countNonCompletedRecords (processText f body env th).1 = 0 := by
  unfold processText
  dsimp only
  repeat' split
  all_goals first
    | rfl
    | (rw [countNonCompletedRecords_append, countNonCompletedRecords_append, cncr_deliver]
       rfl)

theorem cncr_processText_pair (f : Json) (body : String) (env : MsgBEnv) (th : ℚ)
    (tr : List Act) (b : Bool) (h : processText f body env th = (tr, b)) :
    countNonCompletedRecords tr = 0 := by
  have h3 := cncr_processText f body env th
  rw [h] at h3
  exact h3

theorem cncr_process_message (m : Json) (env : MsgBEnv) (th : ℚ) :
    countNonCompletedRecords (iterTrace (process_message m env th)) = 0 := by
  unfold process_message
  repeat' split
  all_goals first
    | rfl
    | (rename_i tr heq
       exact cncr_processText_pair _ _ env th _ _ heq)

theorem cncr_process_message_eq (m : Json) (env : MsgBEnv) (th : ℚ) (r : IterResult)
    (h : process_message m env th = r) :
    countNonCompletedRecords (iterTrace r) = 0 := by
  rw [← h]
  exact cncr_process_message m env th

theorem cncr_processMessages (msgs : List Json) (env : MsgBEnv) (th : ℚ) :
    countNonCompletedRecords (resTrace (processMessages msgs env th)) = 0 := by
  induction msgs with
  | nil => rfl
  | cons m rest ih =>
      unfold processMessages
      cases hit : process_message m env th with
      | ret tr => exact cncr_process_message_eq m env th _ hit
      | err tr e => exact cncr_process_message_eq m env th _ hit
      | cont tr =>
          have h4 : countNonCompletedRecords tr = 0 :=
            cncr_process_message_eq m env th _ hit
          cases hrest : processMessages rest env th with
          | ok tr2 =>
              rw [hrest] at ih
              dsimp only [resTrace] at ih ⊢
              rw [countNonCompletedRecords_append, h4, ih]
          | error pr =>
              rcases pr with ⟨tr2, e⟩
              rw [hrest] at ih
              dsimp only [resTrace] at ih ⊢
              rw [countNonCompletedRecords_append, h4, ih]

theorem cncr_processMessages_eq (msgs : List Json) (env : MsgBEnv) (th : ℚ)
    (r : Except (List Act × String) (List Act)) (h : processMessages msgs env th = r) :
    countNonCompletedRecords (resTrace r) = 0 := by
  rw [← h]
  exact cncr_processMessages msgs env th

theorem cncr_handle_message_update (value : Json) (env : MsgBEnv) (th : ℚ) :
    countNonCompletedRecords (handle_message_update value env th) = 0 := by
  unfold handle_message_update
  split
  · rfl
  · split
    · rfl
    · rename_i msgs heq
      cases hrest : processMessages msgs env th with
      | ok tr => exact cncr_processMessages_eq msgs env th _ hrest
      | error pr =>
          rcases pr with ⟨tr, e⟩
          exact cncr_processMessages_eq msgs env th _ hrest

theorem cncr_save_download (f : Json) (url p : String) (env : WahaAEnv) :
    countNonCompletedRecords (save_download_actions f url p env) = 0 := by
  unfold save_download_actions
  dsimp only
  repeat' split
  all_goals rfl

theorem cncr_handle_waha_core (payload : Json) (env : WahaAEnv) (rh : ℕ) :
    countNonCompletedRecords (resTrace (handle_waha_message_core payload env rh)) = 0 := by
  unfold handle_waha_message_core
  dsimp only
  repeat' split
  all_goals try dsimp only [resTrace]
  all_goals first
    | rfl
    | (repeat rw [countNonCompletedRecords_append]
       rw [cncr_save_download]
       rfl)

theorem cncr_handle_waha (payload : Json) (env : WahaAEnv) (rh : ℕ) :
    countNonCompletedRecords (handle_waha_message payload env rh) = 0 := by
  unfold handle_waha_message
  have h6 := cncr_handle_waha_core payload env rh
  cases hc : handle_waha_message_core payload env rh with
  | ok tr =>
      rw [hc] at h6
      exact h6
  | error pr =>
      rcases pr with ⟨tr, e⟩
      rw [hc] at h6
      dsimp only [resTrace] at h6
      dsimp only
      split
      · rw [countNonCompletedRecords_append, h6]
        rfl
      · exact h6

/-- C6: the core never writes a download record whose status is not
"completed" — on either webhook path and for every environment — and a
failed fetch short-circuits with the user-facing error reply before any
Ledger write. -/
theorem no_failed_status_records :
    (∀ (value : Json) (env : MsgBEnv) (th : ℚ),
        countNonCompletedRecords (handle_message_update value env th) = 0)
  ∧ (∀ (payload : Json) (env : WahaAEnv) (rh : ℕ),
        countNonCompletedRecords (handle_waha_message payload env rh) = 0)
  ∧ (∀ (message from_number textObj : Json) (env : MsgBEnv) (th : ℚ) (body e : String),
        pyGet message "type" = .ok (.str "text") →
        pyIndexStr message "from" = .ok from_number →
        pyIndexStr message "text" = .ok textObj →
        pyIndexStr textObj "body" = .ok (.str body) →
        pyIn "http" (strToLower body) = true →
        is_valid_url (pyStrip body) = true →
        (env.fetch (pyStrip body)).error = some e → e ≠ "" →
        process_message message env th =
          .ret [Act.sendText from_number downloadingMessage,
                Act.sendText from_number (errorReplyMessage (some e))] ∧
        countLedgerWrites [Act.sendText from_number downloadingMessage,
                Act.sendText from_number (errorReplyMessage (some e))] = 0) := by
  refine ⟨cncr_handle_message_update, cncr_handle_waha, ?_⟩
  intro message from_number textObj env th body e hty hfrom htext hbody hhttp hvalid herr hne
  refine ⟨?_, rfl⟩
  rw [process_message_text_shape message from_number textObj env th body hty hfrom htext hbody]
  rw [processText_fetch_failure from_number env th body e hhttp hvalid herr hne]

/- ### C4: the deduplication TTL behaviour -/

/-- After a dict update of key `m`, the surviving entry found for `m` in the
swept cache is `(m, t)` (replacement case). -/
theorem find_filter_upd {α : Type} [BEq α] [LawfulBEq α] (m : α) (t now : ℚ)
    (htt : now - t < MESSAGE_CACHE_TTL) :
    ∀ c : List (α × ℚ), c.any (fun p => p.1 == m) = true →
      ((c.map (fun p => if p.1 == m then (m, t) else p)).filter
          (fun p => decide (now - p.2 < MESSAGE_CACHE_TTL))).find?
        (fun p => p.1 == m) = some (m, t) := by
  intro c
  induction c with
  | nil => intro h; simp at h
  | cons a rest ih =>
      intro h
      rw [List.map_cons]
      cases ha : (a.1 == m) with
      | true =>
          rw [if_pos rfl]
          rw [List.filter_cons_of_pos
            (p := fun q : α × ℚ => decide (now - q.2 < MESSAGE_CACHE_TTL))
            (by simpa using htt)]
          exact List.find?_cons_of_pos
            (p := fun q : α × ℚ => q.1 == m) _ (beq_self_eq_true m)
      | false =>
          rw [if_neg (by simp)]
          have hrest : rest.any (fun p => p.1 == m) = true := by
            rw [List.any_cons, ha] at h
            simpa using h
          cases hf : decide (now - a.2 < MESSAGE_CACHE_TTL) with
          | true =>
              rw [List.filter_cons_of_pos
                (p := fun q : α × ℚ => decide (now - q.2 < MESSAGE_CACHE_TTL)) hf]
              rw [List.find?_cons_of_neg
                (p := fun q : α × ℚ => q.1 == m) _ (by simp [ha])]
              exact ih hrest
          | false =>
              rw [List.filter_cons_of_neg
                (p := fun q : α × ℚ => decide (now - q.2 < MESSAGE_CACHE_TTL))
                (by simp [hf])]
              exact ih hrest

/-- After appending a fresh entry for `m`, the entry found for `m` in the
swept cache is `(m, t)` (new-key case). -/
theorem find_filter_append {α : Type} [BEq α] [LawfulBEq α] (m : α) (t now : ℚ)
    (htt : now - t < MESSAGE_CACHE_TTL) :
    ∀ c : List (α × ℚ), c.any (fun p => p.1 == m) = false →
      ((c ++ [(m, t)]).filter (fun p => decide (now - p.2 < MESSAGE_CACHE_TTL))).find?
        (fun p => p.1 == m) = some (m, t) := by
  intro c
  induction c with
  | nil =>
      intro _
      rw [List.nil_append]
      rw [List.filter_cons_of_pos
        (p := fun q : α × ℚ => decide (now - q.2 < MESSAGE_CACHE_TTL))
        (by simpa using htt)]
      exact List.find?_cons_of_pos
        (p := fun q : α × ℚ => q.1 == m) _ (beq_self_eq_true m)
  | cons a rest ih =>
      intro h
      rw [List.any_cons] at h
      have ha : (a.1 == m) = false := by
        cases hq : (a.1 == m) with
        | true => rw [hq] at h; simp at h
        | false => rfl
      have hrest : rest.any (fun p => p.1 == m) = false := by
        rw [ha] at h
        simpa using h
      rw [List.cons_append]
      cases hf : decide (now - a.2 < MESSAGE_CACHE_TTL) with
      | true =>
          rw [List.filter_cons_of_pos
            (p := fun q : α × ℚ => decide (now - q.2 < MESSAGE_CACHE_TTL)) hf]
          rw [List.find?_cons_of_neg
            (p := fun q : α × ℚ => q.1 == m) _ (by simp [ha])]
          exact ih hrest
      | false =>
          rw [List.filter_cons_of_neg
            (p := fun q : α × ℚ => decide (now - q.2 < MESSAGE_CACHE_TTL))
            (by simp [hf])]
          exact ih hrest

/-- Recording a message id and sweeping leaves the id looked up at the
recorded time. -/
theorem lookup_cleanup_insert {α : Type} [BEq α] [LawfulBEq α]
    (c : List (α × ℚ)) (m : α) (t now : ℚ) (htt : now - t < MESSAGE_CACHE_TTL) :
    cacheLookup (cleanup_message_cache (cacheInsert c m t) now) m = some t := by
  unfold cacheLookup cleanup_message_cache cacheInsert
  cases h : c.any (fun p => p.1 == m) with
  | true =>
      rw [if_pos rfl, find_filter_upd m t now htt c h]
      rfl
  | false =>
      rw [if_neg (by simp), find_filter_append m t now htt c h]
      rfl

/-- When `shouldProcess` lets an event through, it has recorded `now` for
the id. -/
theorem shouldProcess_true_cache {α : Type} [BEq α] [LawfulBEq α]
    (c : List (α × ℚ)) (m : α) (now : ℚ)
    (h : (shouldProcess c m now).1 = true) :
    (shouldProcess c m now).2 = cleanup_message_cache (cacheInsert c m now) now := by
  unfold shouldProcess at h ⊢
  cases hl : cacheLookup c m with
  | none => rfl
  | some last =>
      rw [hl] at h
      dsimp only at h ⊢
      by_cases hc : now - last < MESSAGE_CACHE_TTL
      · rw [if_pos hc] at h
        exact absurd h (by simp)
      · rw [if_neg hc]

/-- C4: a second `shouldProcess` call for the same id within TTL seconds of
a first accepted call returns `false`, and a call made TTL seconds or more
after the recorded time returns `true` and refreshes the recorded
timestamp. -/
theorem shouldProcess_dedup_ttl {α : Type} [BEq α] [LawfulBEq α]
    (c : List (α × ℚ)) (m : α) (a b w t : ℚ) :
    ((shouldProcess c m a).1 = true → b - a < MESSAGE_CACHE_TTL →
        (shouldProcess (shouldProcess c m a).2 m b).1 = false)
  ∧ (cacheLookup c m = some t → MESSAGE_CACHE_TTL ≤ w - t →
        (shouldProcess c m w).1 = true ∧
        cacheLookup (shouldProcess c m w).2 m = some w) := by
  constructor
  · intro h1 h2
    have hself : a - a < MESSAGE_CACHE_TTL := by
      rw [sub_self]
      norm_num [MESSAGE_CACHE_TTL]
    have hl : cacheLookup (shouldProcess c m a).2 m = some a := by
      rw [shouldProcess_true_cache c m a h1]
      exact lookup_cleanup_insert c m a a hself
    generalize (shouldProcess c m a).2 = c2 at hl ⊢
    unfold shouldProcess
    rw [hl]
    dsimp only
    rw [if_pos h2]
  · intro h1 h2
    have hself : w - w < MESSAGE_CACHE_TTL := by
      rw [sub_self]
      norm_num [MESSAGE_CACHE_TTL]
    have hge : ¬(w - t < MESSAGE_CACHE_TTL) := not_lt.mpr h2
    constructor
    · unfold shouldProcess
      rw [h1]
      dsimp only
      rw [if_neg hge]
    · unfold shouldProcess
      rw [h1]
      dsimp only
      rw [if_neg hge]
      exact lookup_cleanup_insert c m w w hself

/- ### C8: unrecognized webhook payloads -/

/-- C8 (amended): an inbound webhook whose body is a JSON object that
neither satisfies the shape-A guard nor carries a `"data"` key is
acknowledged with status "ok", performs no action and leaves the cache
untouched. -/
theorem webhook_unrecognized_object_acknowledged_ok
    (kvs : List (String × Json)) (cache : List (Json × ℚ)) (now : ℚ)
    (envA : WahaAEnv) (envB : MsgBEnv) (rh : ℕ) (th : ℚ)
    (hA : matchesShapeA (.obj kvs) = false)
    (hD : kvs.any (fun p => p.1 == "data") = false) :
    receive_webhook cache now envA envB rh th (.obj kvs) = ("ok", [], cache) := by
  unfold receive_webhook
  cases hE : kvs.any (fun p => p.1 == "event") with
  | false => simp [pyContains, pyKeys, hE, hD]
  | true =>
      have hiso := any_key_eq_objFind_isSome kvs "event"
      rw [hE] at hiso
      obtain ⟨w, hw⟩ : ∃ w, objFind kvs "event" = some w := by
        cases hq : objFind kvs "event" with
        | some w => exact ⟨w, rfl⟩
        | none => rw [hq] at hiso; simp at hiso
      cases hm : jEqStr w "message" with
      | false => simp [pyContains, pyIndexStr, pyKeys, hE, hw, hm, hD]
      | true =>
          cases hP : kvs.any (fun p => p.1 == "payload") with
          | false => simp [pyContains, pyIndexStr, pyKeys, hE, hw, hm, hP, hD]
          | true =>
              exfalso
              have hPs := any_key_eq_objFind_isSome kvs "payload"
              rw [hP] at hPs
              cases w with
              | str s =>
                  dsimp only [jEqStr] at hm
                  unfold matchesShapeA at hA
                  dsimp only at hA
                  rw [hw] at hA
                  dsimp only at hA
                  rw [hm, ← hPs] at hA
                  simp at hA
              | null => simp [jEqStr] at hm
              | jbool b => simp [jEqStr] at hm
              | num q => simp [jEqStr] at hm
              | arr xs => simp [jEqStr] at hm
              | obj o => simp [jEqStr] at hm

/- ### C10: shape-A events without a message id bypass deduplication -/

/-- C10: a shape-A event whose payload has no id (missing or empty string)
skips the duplicate check and the cache update entirely: the handler runs,
the cache is unchanged, and an identical repeat is processed again rather
than absorbed. -/
theorem shapeA_missing_id_skips_dedup
    (kvs pkvs : List (String × Json)) (cache : List (Json × ℚ)) (nowa nowb : ℚ)
    (envA : WahaAEnv) (envB : MsgBEnv) (rh : ℕ) (th : ℚ)
    (hev : objFind kvs "event" = some (.str "message"))
    (hpl : objFind kvs "payload" = some (.obj pkvs))
    (hid : objFind pkvs "id" = none ∨ objFind pkvs "id" = some (.str "")) :
    receive_webhook cache nowa envA envB rh th (.obj kvs) =
      ("ok", handle_waha_message (.obj pkvs) envA rh, cache) ∧
    receive_webhook (receive_webhook cache nowa envA envB rh th (.obj kvs)).2.2 nowb
        envA envB rh th (.obj kvs) =
      ("ok", handle_waha_message (.obj pkvs) envA rh,
       (receive_webhook cache nowa envA envB rh th (.obj kvs)).2.2) := by
  have main : ∀ (c2 : List (Json × ℚ)) (nw : ℚ),
      receive_webhook c2 nw envA envB rh th (.obj kvs) =
        ("ok", handle_waha_message (.obj pkvs) envA rh, c2) := by
    intro c2 nw
    have hE : kvs.any (fun p => p.1 == "event") = true := by
      rw [any_key_eq_objFind_isSome, hev]
      rfl
    have hP : kvs.any (fun p => p.1 == "payload") = true := by
      rw [any_key_eq_objFind_isSome, hpl]
      rfl
    unfold receive_webhook
    rcases hid with hid | hid <;>
      simp [pyContains, pyIndexStr, pyGet, jEqStr, pyTruthy, hE, hP, hev, hpl, hid]
  refine ⟨main cache nowa, ?_⟩
  rw [main cache nowa]
  exact main cache nowb

/- ### Counterexamples and witnesses -/

/-- C1 counterexample: the spec scenario (valid URL, fetched file of
20 * 1024 * 1024 bytes, threshold 16 MB) delivered as a shape-A event makes
one inline-send attempt and no cloud upload, and never deletes the local
file — the shape-A handler ignores the size threshold entirely. -/
theorem shapeA_large_file_attempts_inline_counterexample :
    ((16 : ℚ) ≤ (20971520 : ℚ) / (1024 * 1024)) ∧
    envA0.getSizeBytes "x.mp4" = some 20971520 ∧
    (receive_webhook [] 0 envA0 envB0 24 16 bodyA20).1 = "ok" ∧
    countInlineSend (receive_webhook [] 0 envA0 envB0 24 16 bodyA20).2.1 = 1 ∧
    countCloudUpload (receive_webhook [] 0 envA0 envB0 24 16 bodyA20).2.1 = 0 ∧
    containsDeleteFile (receive_webhook [] 0 envA0 envB0 24 16 bodyA20).2.1 "x.mp4" = false := by
  refine ⟨by norm_num, rfl, rfl, rfl, rfl, rfl⟩

/-- C1 witness: the same scenario as a legacy shape-B message. -/
theorem shapeB_large_file_cloud_only_witness :
    ∃ tr, process_message legacyMessage0 envB0 16 = .cont tr ∧
      countCloudUpload tr = 1 ∧ countInlineSend tr = 0 ∧
      containsDeleteFile tr "x.mp4" = true := by
  refine shapeB_large_file_cloud_only legacyMessage0 (.str "123")
    (.obj [("body", .str "https://youtu.be/abc")]) envB0 16 "https://youtu.be/abc"
    "x.mp4" "https://cdn.example/v.mp4"
    rfl rfl rfl rfl (by decide) (by decide) rfl (by decide) rfl ?_ rfl (by decide) rfl
  norm_num [envB0, fetch20mb, pyOrRat]

/-- C2 witness. -/
theorem classify_total_witness :
    classify "https://youtu.be/abc" = .Valid "https://youtu.be/abc" ∧
    (pyStartsWith "https://youtu.be/abc" "https://www.youtube.com" = true ∨
     pyStartsWith "https://youtu.be/abc" "https://youtube.com" = true ∨
     pyStartsWith "https://youtu.be/abc" "https://youtu.be" = true ∨
     pyStartsWith "https://youtu.be/abc" "https://www.facebook.com" = true ∨
     pyStartsWith "https://youtu.be/abc" "https://facebook.com" = true ∨
     pyStartsWith "https://youtu.be/abc" "https://fb.watch" = true ∨
     pyIn "facebook.com/share" "https://youtu.be/abc" = true) :=
  ⟨by decide,
   (classify_total_and_valid_from_allow_list "https://youtu.be/abc").2
     "https://youtu.be/abc" (by decide)⟩

/-- C3 witness: a concrete checkpoint failure. -/
theorem checkpoint_error_witness :
    process_message legacyMessage0 envBCp 16 =
      .ret [Act.sendText (.str "123") downloadingMessage,
            Act.sendText (.str "123") checkpointMessage] ∧
    countLedgerWrites [Act.sendText (.str "123") downloadingMessage,
            Act.sendText (.str "123") checkpointMessage] = 0 ∧
    (∀ s, checkpointMessage ≠ genericDownloadMsgStart ++ s) :=
  checkpoint_error_distinct_message_no_ledger legacyMessage0 (.str "123")
    (.obj [("body", .str "https://youtu.be/abc")]) envBCp 16 "https://youtu.be/abc"
    "Facebook security checkpoint detected: https://www.facebook.com/checkpoint"
    rfl rfl rfl rfl (by decide) (by decide) rfl (by decide)

/-- C4 witness: id "m1" recorded at time 0; accepted at 70, rejected at 80,
accepted and refreshed at 60. -/
theorem shouldProcess_dedup_ttl_witness :
    (shouldProcess (shouldProcess [(("m1" : String), (0 : ℚ))] "m1" 70).2 "m1" 80).1 = false ∧
    (shouldProcess [(("m1" : String), (0 : ℚ))] "m1" 60).1 = true ∧
    cacheLookup (shouldProcess [(("m1" : String), (0 : ℚ))] "m1" 60).2 "m1" = some 60 := by
  have h := shouldProcess_dedup_ttl [(("m1" : String), (0 : ℚ))] "m1" 70 80 60 0
  have h1 : (shouldProcess [(("m1" : String), (0 : ℚ))] "m1" 70).1 = true := by
    unfold shouldProcess
    rw [show cacheLookup [(("m1" : String), (0 : ℚ))] "m1" = some 0 from rfl]
    dsimp only
    rw [if_neg (by norm_num [MESSAGE_CACHE_TTL])]
  have h2 := h.2 rfl (by norm_num [MESSAGE_CACHE_TTL])
  exact ⟨h.1 h1 (by norm_num [MESSAGE_CACHE_TTL]), h2.1, h2.2⟩

/-- C6 witness: concrete runs of both handlers, plus the failed-fetch
short-circuit at a concrete checkpoint error. -/
theorem no_failed_status_records_witness :
    countNonCompletedRecords
        (handle_message_update (.obj [("messages", .arr [legacyMessage0])]) envB0 16) = 0 ∧
    countNonCompletedRecords
        (handle_waha_message
          (.obj [("from", .str "123"), ("body", .str "https://youtu.be/abc")]) envA0 24) = 0 ∧
    (process_message legacyMessage0 envBCp 16 =
        .ret [Act.sendText (.str "123") downloadingMessage,
              Act.sendText (.str "123")
                (errorReplyMessage
                  (some "Facebook security checkpoint detected: https://www.facebook.com/checkpoint"))] ∧
      countLedgerWrites [Act.sendText (.str "123") downloadingMessage,
              Act.sendText (.str "123")
                (errorReplyMessage
                  (some "Facebook security checkpoint detected: https://www.facebook.com/checkpoint"))] = 0) :=
  ⟨no_failed_status_records.1 (.obj [("messages", .arr [legacyMessage0])]) envB0 16,
   no_failed_status_records.2.1
     (.obj [("from", .str "123"), ("body", .str "https://youtu.be/abc")]) envA0 24,
   no_failed_status_records.2.2 legacyMessage0 (.str "123")
     (.obj [("body", .str "https://youtu.be/abc")]) envBCp 16 "https://youtu.be/abc"
     "Facebook security checkpoint detected: https://www.facebook.com/checkpoint"
     rfl rfl rfl rfl (by decide) (by decide) rfl (by decide)⟩

/-- C8 counterexample: a failed JSON parse leaves the body `None`; the
endpoint then answers with status "error", not "ok", although `None` matches
neither webhook shape. -/
theorem webhook_null_body_returns_error_counterexample :
    matchesShapeA Json.null = false ∧ matchesShapeB Json.null = false ∧
    (receive_webhook [] 0 envA0 envB0 24 16 Json.null).1 = "error" :=
  ⟨rfl, rfl, rfl⟩

/-- C8 witness. -/
theorem webhook_unrecognized_witness :
    receive_webhook [] 0 envA0 envB0 24 16 (.obj [("foo", .num 1)]) = ("ok", [], []) :=
  webhook_unrecognized_object_acknowledged_ok [("foo", .num 1)] [] 0 envA0 envB0 24 16
    rfl rfl

/-- C10 witness: a shape-A event without an id is processed, leaves the
cache empty, and a repeat five seconds later is processed again. -/
theorem shapeA_missing_id_witness :
    receive_webhook [] 0 envA0 envB0 24 16
        (.obj [("event", .str "message"),
               ("payload", .obj [("from", .str "123"),
                                 ("body", .str "https://youtu.be/abc")])]) =
      ("ok",
       handle_waha_message
         (.obj [("from", .str "123"), ("body", .str "https://youtu.be/abc")]) envA0 24,
       []) ∧
    receive_webhook
        (receive_webhook [] 0 envA0 envB0 24 16
          (.obj [("event", .str "message"),
                 ("payload", .obj [("from", .str "123"),
                                   ("body", .str "https://youtu.be/abc")])])).2.2 5
        envA0 envB0 24 16
        (.obj [("event", .str "message"),
               ("payload", .obj [("from", .str "123"),
                                 ("body", .str "https://youtu.be/abc")])]) =
      ("ok",
       handle_waha_message
         (.obj [("from", .str "123"), ("body", .str "https://youtu.be/abc")]) envA0 24,
       (receive_webhook [] 0 envA0 envB0 24 16
         (.obj [("event", .str "message"),
                ("payload", .obj [("from", .str "123"),
                                  ("body", .str "https://youtu.be/abc")])])).2.2) :=
  shapeA_missing_id_skips_dedup
    [("event", .str "message"),
     ("payload", .obj [("from", .str "123"), ("body", .str "https://youtu.be/abc")])]
    [("from", .str "123"), ("body", .str "https://youtu.be/abc")]
    [] 0 5 envA0 envB0 24 16 rfl rfl (Or.inl rfl)

/-- C3 counterexample: the Fetcher's bot-challenge failure (the raise at
video.py line 91, a Checkpoint-kind error of the specification) propagates
through `download_video` with the message "Facebook security challenge
detected", which does not contain "checkpoint" — so the handler dispatches
the generic could-not-download message, not the remediation guidance. -/
theorem checkpoint_challenge_generic_message_counterexample :
    (download_video "https://www.facebook.com/share/v/abc" challengeOracle).error =
      some "Facebook security challenge detected" ∧
    process_message legacyShareMessage envBChal 16 =
      .ret [Act.sendText (.str "123") downloadingMessage,
            Act.sendText (.str "123")
              (genericDownloadMsgStart ++ "Facebook security challenge detected")] ∧
    (genericDownloadMsgStart ++ "Facebook security challenge detected") ≠ checkpointMessage := by
  refine ⟨rfl, rfl, by decide⟩
